import Mathlib

/-
Verification development for the rusty-gb Game Boy (SM83) CPU core.

Shallow embedding of the Rust sources:
  src/utils.rs             - word/byte packing helpers
  src/cpu/registers.rs     - register file (Registers, Register8b, Register16b, Flag)
  src/memory/mbc.rs        - MemoryBankController error type
  src/memory/mbc/mbc_none.rs - MbcNone (flat cartridge mapping)
  src/memory.rs            - Mmu (address-space bus)
  src/cpu/alu.rs           - ALU operations (flag side effects)
  src/cpu/ops.rs           - instruction dispatch (execute_instr)

Machine integers are modelled as Nat with explicit `% 2^w` at the points where
Rust performs wrapping arithmetic or truncating casts.  A Rust panic
(array index out of bounds, `unimplemented!`, an unhandled opcode) is modelled
as `none` / `Option`; a Rust `Result` is modelled as `Except`.
Vec/array backing stores of a fixed length L are modelled as a function
`Nat -> Nat` together with the explicit bound check `index < L` that Rust's
indexing operation performs (indexing past L is the `none` panic case).
-/

namespace RustyGb

/-! ## src/utils.rs -/

/-- Splits a 16-bit word into `(high, low)` bytes; `(value >> 8) as u8` and
`value & 0x00FF`, from src/utils.rs `word_to_bytes`. -/
def word_to_bytes (value : Nat) : Nat × Nat :=
  ((value >>> 8) % 256, value &&& 0x00FF)

/-- Recombines two bytes into a word: `((high as u16) << 8) + low`, from
src/utils.rs `bytes_to_word`. -/
def bytes_to_word (high_byte low_byte : Nat) : Nat :=
  (high_byte <<< 8) + low_byte

/-- Wrapping 16-bit addition, `u16::wrapping_add`. -/
def wadd16 (x y : Nat) : Nat := (x + y) % 65536

/-- Wrapping 16-bit subtraction, `u16::wrapping_sub` (operands reduced mod 2^16). -/
def wsub16 (x y : Nat) : Nat := (x % 65536 + 65536 - y % 65536) % 65536

/-- Wrapping 8-bit addition, `u8::wrapping_add`. -/
def wadd8 (x y : Nat) : Nat := (x + y) % 256

/-- Wrapping 8-bit subtraction, `u8::wrapping_sub` (operands reduced mod 2^8). -/
def wsub8 (x y : Nat) : Nat := (x % 256 + 256 - y % 256) % 256

/-- `b as i8 as u16` for a byte `b < 256`: sign-extension of a byte to 16 bits. -/
def i8_as_u16 (b : Nat) : Nat := if b < 128 then b else 0xFF00 + b

/-! ## src/cpu/registers.rs -/

/-- The 8-bit register identifiers (closed enumeration). -/
inductive Register8b
  | A | F | B | C | D | E | H | L

/-- The 16-bit register identifiers (closed enumeration). -/
inductive Register16b
  | AF | BC | DE | HL | SP | PC

/-- The four CPU flags packed in bits 7..4 of F. -/
inductive Flag
  | Z | N | H | C

/-- The register file: eight 8-bit cells plus sp and pc, from
src/cpu/registers.rs `struct Registers`.  Each cell holds a `u8`
(resp. `u16`) value. -/
structure Registers where
  a : Nat
  f : Nat
  b : Nat
  c : Nat
  d : Nat
  e : Nat
  h : Nat
  l : Nat
  sp : Nat
  pc : Nat

/-- `Registers::new`: zero-initialized register file. -/
def Registers.new : Registers :=
  { a := 0, f := 0, b := 0, c := 0, d := 0, e := 0, h := 0, l := 0, sp := 0, pc := 0 }

/-- `Registers::set_r8`: store `value` into the named 8-bit register.
Note the F case stores the value unmasked (source comment: "should never be
written to directly?"). -/
def Registers.set_r8 (r : Registers) (reg : Register8b) (value : Nat) : Registers :=
  match reg with
  | .A => { r with a := value }
  | .F => { r with f := value }
  | .B => { r with b := value }
  | .C => { r with c := value }
  | .D => { r with d := value }
  | .E => { r with e := value }
  | .H => { r with h := value }
  | .L => { r with l := value }

/-- `Registers::get_r8`. -/
def Registers.get_r8 (r : Registers) (reg : Register8b) : Nat :=
  match reg with
  | .A => r.a
  | .F => r.f
  | .B => r.b
  | .C => r.c
  | .D => r.d
  | .E => r.e
  | .H => r.h
  | .L => r.l

/-- `Registers::set_r16`: the AF case masks the low nibble of the low byte
(`y & 0xF0`) before storing into F; the other pairs store both bytes raw. -/
def Registers.set_r16 (r : Registers) (reg : Register16b) (value : Nat) : Registers :=
  match reg with
  | .AF =>
      let p := word_to_bytes value
      { r with a := p.1, f := p.2 &&& 0xF0 }
  | .BC =>
      let p := word_to_bytes value
      { r with b := p.1, c := p.2 }
  | .DE =>
      let p := word_to_bytes value
      { r with d := p.1, e := p.2 }
  | .HL =>
      let p := word_to_bytes value
      { r with h := p.1, l := p.2 }
  | .SP => { r with sp := value }
  | .PC => { r with pc := value }

/-- `Registers::get_r16`. -/
def Registers.get_r16 (r : Registers) (reg : Register16b) : Nat :=
  match reg with
  | .AF => bytes_to_word r.a r.f
  | .BC => bytes_to_word r.b r.c
  | .DE => bytes_to_word r.d r.e
  | .HL => bytes_to_word r.h r.l
  | .SP => r.sp
  | .PC => r.pc

/-- The single-bit mask of a flag inside F (bits 7,6,5,4 for Z,N,H,C). -/
def Flag.mask : Flag → Nat
  | .Z => 0b10000000
  | .N => 0b01000000
  | .H => 0b00100000
  | .C => 0b00010000

/-- `Registers::set_flag`: `f |= mask` to set, `f &= !mask` to clear
(`!mask` is the 8-bit complement `0xFF ^^^ mask`). -/
def Registers.set_flag (r : Registers) (flag : Flag) (value : Bool) : Registers :=
  match value with
  | true => { r with f := r.f ||| flag.mask }
  | false => { r with f := r.f &&& (0xFF ^^^ flag.mask) }

/-- `Registers::flag_value`: extract the flag bit and compare with 1.
The source matches the extracted bit against 0/1 and panics otherwise; since a
single-bit mask shifted down is always 0 or 1, that branch is unreachable and
the function is total. -/
def Registers.flag_value (r : Registers) (flag : Flag) : Bool :=
  let bit : Nat :=
    match flag with
    | .Z => (r.f &&& 0b10000000) >>> 7
    | .N => (r.f &&& 0b01000000) >>> 6
    | .H => (r.f &&& 0b00100000) >>> 5
    | .C => (r.f &&& 0b00010000) >>> 4
  bit == 1

/-! ## src/memory/mbc.rs and src/memory/mbc/mbc_none.rs -/

/-- The MBC error enumeration from src/memory/mbc.rs. -/
inductive MBCError
  | ROMAccessOutOfRange

/-- `ROM_SIZE_MBC_NONE` from src/memory/mbc/mbc_none.rs (the source sets it
to 0x7FFF). -/
def ROM_SIZE_MBC_NONE : Nat := 0x7FFF

/-- `MbcNone`: a flat cartridge array of length `ROM_SIZE_MBC_NONE`, modelled
as its contents function (index `i < ROM_SIZE_MBC_NONE` holds `rom i`). -/
structure MbcNone where
  rom : Nat → Nat

/-- `MbcNone::new`: zero-filled ROM. -/
def MbcNone.new : MbcNone := { rom := fun _ => 0 }

/-- `MbcNone::read_byte`: bound check `address >= ROM_SIZE_MBC_NONE` yields
`ROMAccessOutOfRange`, otherwise the array element is returned. -/
def MbcNone.read_byte (m : MbcNone) (address : Nat) : Except MBCError Nat :=
  if ROM_SIZE_MBC_NONE ≤ address then
    .error .ROMAccessOutOfRange
  else
    .ok (m.rom address)

/-- `MbcNone::write_byte`: same bound check, then store. -/
def MbcNone.write_byte (m : MbcNone) (address value : Nat) : Except MBCError MbcNone :=
  if ROM_SIZE_MBC_NONE ≤ address then
    .error .ROMAccessOutOfRange
  else
    .ok { rom := fun i => if i = address then value else m.rom i }

/-! ## src/memory.rs -/

/-- `WRAM_SIZE` from src/memory.rs (the source sets it to 0x1FFF). -/
def WRAM_SIZE : Nat := 0x1FFF

/-- `REGS_SIZE` from src/memory.rs. -/
def REGS_SIZE : Nat := 0x7F

/-- The memory bus from src/memory.rs `struct Mmu`: WRAM and I/O register
backing vectors (of lengths `WRAM_SIZE` and `REGS_SIZE`, modelled as contents
functions), the interrupt-enable flag, and the MBC instance. -/
structure Mmu where
  wram : Nat → Nat
  io_registers : Nat → Nat
  interrupt_enable : Bool
  mbc : MbcNone

/-- `Mmu::new`. -/
def Mmu.new : Mmu :=
  { wram := fun _ => 0
    io_registers := fun _ => 0
    interrupt_enable := false
    mbc := MbcNone.new }

/-- `Mmu::read_byte`: dispatch by address range exactly as the source match.
`none` models a panic (`panic!` on a cartridge read error, `unimplemented!`
for the out-of-scope regions, or a Vec index out of bounds). -/
def Mmu.read_byte (m : Mmu) (address : Nat) : Option Nat :=
  if address ≤ 0x7FFF then
    match m.mbc.read_byte address with
    | .ok byte => some byte
    | .error _ => none
  else if address ≤ 0x9FFF then
    none
  else if address ≤ 0xBFFF then
    none
  else if address ≤ 0xDFFF then
    if address - 0xC000 < WRAM_SIZE then some (m.wram (address - 0xC000)) else none
  else if address ≤ 0xFDFF then
    none
  else if address ≤ 0xFE9F then
    none
  else if address ≤ 0xFEFF then
    some 0
  else if address ≤ 0xFF7F then
    none
  else if address ≤ 0xFFFE then
    none
  else if address = 0xFFFF then
    some (if m.interrupt_enable then 1 else 0)
  else
    none

/-- `Mmu::write_byte`: the ROM arm calls the MBC and DISCARDS its `Result`
(the source statement `self.mbc.write_byte(address, value);` drops the value),
the WRAM arm indexes the backing vector (out-of-bounds index panics = `none`),
and every other address falls into `unimplemented!` (= `none`). -/
def Mmu.write_byte (m : Mmu) (address value : Nat) : Option Mmu :=
  if address ≤ 0x7FFF then
    match m.mbc.write_byte address value with
    | .ok mbc1 => some { m with mbc := mbc1 }
    | .error _ => some m
  else if 0xC000 ≤ address ∧ address ≤ 0xDFFF then
    if address - 0xC000 < WRAM_SIZE then
      some { m with wram := fun i => if i = address - 0xC000 then value else m.wram i }
    else
      none
  else
    none

/-- `Mmu::read_word`: low byte at `address`, high byte at `address + 1`. -/
def Mmu.read_word (m : Mmu) (address : Nat) : Option Nat := do
  let low ← m.read_byte address
  let high ← m.read_byte (address + 1)
  pure (bytes_to_word high low)

/-- `Mmu::write_word`: low byte to `address`, high byte to `address + 1`. -/
def Mmu.write_word (m : Mmu) (address value : Nat) : Option Mmu := do
  let p := word_to_bytes value
  let m1 ← m.write_byte address p.2
  m1.write_byte (address + 1) p.1

/-! ## The Cpu aggregate (src/cpu.rs) -/

/-- The CPU aggregate: register file, halted flag, interrupt-master-enable
flag and the memory bus, from src/cpu.rs `struct Cpu`. -/
structure Cpu where
  registers : Registers
  halted : Bool
  interrupt_master_enable : Bool
  mmu : Mmu

/-- `Cpu::new`: zeroed registers, `halted: false`,
`interrupt_master_enable: false`, fresh Mmu. -/
def Cpu.new : Cpu :=
  { registers := Registers.new
    halted := false
    interrupt_master_enable := false
    mmu := Mmu.new }

/-! ## src/cpu/alu.rs

Each ALU operation reads/writes flags through `self.registers`, so it is
modelled as a function `Cpu -> ... -> Cpu × result` (state passing). -/

/-- `Cpu::alu_add_bytes` from src/cpu/alu.rs: widen both operands to u16,
fold the optional carry into `y` BEFORE the addition and the H-flag XOR test,
then set Z,N,H,C and narrow the result to 8 bits. -/
def Cpu.alu_add_bytes (cpu : Cpu) (x y : Nat) (use_carry : Bool) : Cpu × Nat :=
  let c : Nat := if use_carry && cpu.registers.flag_value .C then 1 else 0
  let x16 := x
  let y16 := (y + c) % 65536
  let result := (x16 + y16) % 65536
  let regs := cpu.registers.set_flag .Z (result &&& 0x00FF == 0)
  let regs := regs.set_flag .N false
  let regs := regs.set_flag .H (((x16 ^^^ y16 ^^^ result) &&& 0x10) != 0)
  let regs := regs.set_flag .C ((result &&& 0x100) != 0)
  ({ cpu with registers := regs }, result % 256)

/-- `Cpu::alu_sub_bytes` from src/cpu/alu.rs: widen, fold the optional borrow
into `y`, subtract with u16 two's-complement wraparound, set Z,N,H,C, narrow. -/
def Cpu.alu_sub_bytes (cpu : Cpu) (x y : Nat) (use_carry : Bool) : Cpu × Nat :=
  let c : Nat := if use_carry && cpu.registers.flag_value .C then 1 else 0
  let x16 := x
  let y16 := (y + c) % 65536
  let result := (x16 + 65536 - y16) % 65536
  let regs := cpu.registers.set_flag .Z (result &&& 0x00FF == 0)
  let regs := regs.set_flag .N true
  let regs := regs.set_flag .H ((y16 &&& 0x0F) > (x16 &&& 0x0F))
  let regs := regs.set_flag .C ((result &&& 0x100) != 0)
  ({ cpu with registers := regs }, result % 256)

/-- `Cpu::alu_add_words` from src/cpu/alu.rs: cache Z, chain two byte adds
(low first, then high with carry), restore Z. -/
def Cpu.alu_add_words (cpu : Cpu) (x y : Nat) : Cpu × Nat :=
  let xp := word_to_bytes x
  let yp := word_to_bytes y
  let z := cpu.registers.flag_value .Z
  let r1 := cpu.alu_add_bytes xp.2 yp.2 false
  let r2 := r1.1.alu_add_bytes xp.1 yp.1 true
  let cpu2 := r2.1
  ({ cpu2 with registers := cpu2.registers.set_flag .Z z }, bytes_to_word r2.2 r1.2)

/-- `Cpu::alu_inc_byte` from src/cpu/alu.rs. -/
def Cpu.alu_inc_byte (cpu : Cpu) (x : Nat) : Cpu × Nat :=
  let result := wadd8 x 1
  let regs := cpu.registers.set_flag .Z (result == 0)
  let regs := regs.set_flag .N false
  let regs := regs.set_flag .H ((x &&& 0x0F) + 1 > 0x0F)
  ({ cpu with registers := regs }, result)

/-- `Cpu::alu_dec_byte` from src/cpu/alu.rs. -/
def Cpu.alu_dec_byte (cpu : Cpu) (x : Nat) : Cpu × Nat :=
  let result := wsub8 x 1
  let regs := cpu.registers.set_flag .Z (result == 0)
  let regs := regs.set_flag .N true
  let regs := regs.set_flag .H ((x &&& 0x0F) == 0)
  ({ cpu with registers := regs }, result)

/-- `Cpu::alu_and_a` from src/cpu/alu.rs: `A = A & y` plus flags. -/
def Cpu.alu_and_a (cpu : Cpu) (y : Nat) : Cpu :=
  let a := cpu.registers.get_r8 .A
  let result := a &&& y
  let regs := cpu.registers.set_flag .Z (result == 0)
  let regs := regs.set_flag .N false
  let regs := regs.set_flag .H true
  let regs := regs.set_flag .C false
  { cpu with registers := regs.set_r8 .A result }

/-- `Cpu::alu_xor_a` from src/cpu/alu.rs: `A = A ^ y` plus flags. -/
def Cpu.alu_xor_a (cpu : Cpu) (y : Nat) : Cpu :=
  let a := cpu.registers.get_r8 .A
  let result := a ^^^ y
  let regs := cpu.registers.set_flag .Z (result == 0)
  let regs := regs.set_flag .N false
  let regs := regs.set_flag .H false
  let regs := regs.set_flag .C false
  { cpu with registers := regs.set_r8 .A result }

/-- `Cpu::alu_or_a` from src/cpu/alu.rs: `A = A | y` plus flags. -/
def Cpu.alu_or_a (cpu : Cpu) (y : Nat) : Cpu :=
  let a := cpu.registers.get_r8 .A
  let result := a ||| y
  let regs := cpu.registers.set_flag .Z (result == 0)
  let regs := regs.set_flag .N false
  let regs := regs.set_flag .H false
  let regs := regs.set_flag .C false
  { cpu with registers := regs.set_r8 .A result }

/-- `Cpu::alu_cp_a` from src/cpu/alu.rs: `SUB A, y` with the result discarded. -/
def Cpu.alu_cp_a (cpu : Cpu) (y : Nat) : Cpu :=
  let a := cpu.registers.get_r8 .A
  (cpu.alu_sub_bytes a y false).1

/-- `Cpu::bit_op_rlc` from src/cpu/alu.rs: shift left by one, rotate the C
flag in at bit 0; the shifted-out bit 7 becomes the new C. -/
def Cpu.bit_op_rlc (cpu : Cpu) (x : Nat) : Cpu × Nat :=
  let carry_out := x >>> 7
  let carry_in : Nat := if cpu.registers.flag_value .C then 1 else 0
  let value := ((x <<< 1) % 256) ||| carry_in
  let regs := cpu.registers.set_flag .Z (value == 0)
  let regs := regs.set_flag .N false
  let regs := regs.set_flag .H false
  let regs := regs.set_flag .C (carry_out != 0)
  ({ cpu with registers := regs }, value)

/-- `Cpu::bit_op_rrc` from src/cpu/alu.rs: shift right by one, rotate the C
flag in; `carry_out` is `x << 7` truncated to u8. -/
def Cpu.bit_op_rrc (cpu : Cpu) (x : Nat) : Cpu × Nat :=
  let carry_out := (x <<< 7) % 256
  let carry_in : Nat := if cpu.registers.flag_value .C then 1 else 0
  let value := (x >>> 1) ||| carry_in
  let regs := cpu.registers.set_flag .Z (value == 0)
  let regs := regs.set_flag .N false
  let regs := regs.set_flag .H false
  let regs := regs.set_flag .C (carry_out != 0)
  ({ cpu with registers := regs }, value)

/-- `Cpu::ld_regs_8b` from src/cpu.rs: copy one 8-bit register into another. -/
def Cpu.ld_regs_8b (cpu : Cpu) (reg_to reg_from : Register8b) : Cpu :=
  let value := cpu.registers.get_r8 reg_from
  { cpu with registers := cpu.registers.set_r8 reg_to value }

/-- Modelled from the spec: `fetch_byte` is declared in the cpu module root,
which is absent from src/ (only its callers in src/cpu/ops.rs and its tests in
src/cpu/tests.rs are present).  Spec section 4.4: read one byte at PC through
the Bus and advance PC by 1 as a side effect (behaviour confirmed by the
`cpu_fetch_byte` test). -/
def Cpu.fetch_byte (cpu : Cpu) : Option (Cpu × Nat) := do
  let value ← cpu.mmu.read_byte cpu.registers.pc
  pure ({ cpu with registers := { cpu.registers with pc := wadd16 cpu.registers.pc 1 } },
        value)

/-- Modelled from the spec: `fetch_word` is declared in the cpu module root,
which is absent from src/.  Spec section 4.4: read a little-endian word at PC
through the Bus and advance PC by 2 (behaviour confirmed by the
`cpu_fetch_word` test). -/
def Cpu.fetch_word (cpu : Cpu) : Option (Cpu × Nat) := do
  let value ← cpu.mmu.read_word cpu.registers.pc
  pure ({ cpu with registers := { cpu.registers with pc := wadd16 cpu.registers.pc 2 } },
        value)

/-- `Cpu::execute_prefixed_instr` from src/cpu/ops.rs: the body immediately
calls `unimpl_instr`, which panics (`none`). -/
def Cpu.execute_prefixed_instr (_cpu : Cpu) (_instruction : Nat) : Option (Cpu × Nat) :=
  none

set_option maxHeartbeats 4000000

/-- `Cpu::execute_instr` from src/cpu/ops.rs: the full opcode dispatch.
Each arm mirrors the corresponding source arm; `none` models `unimpl_instr`
(a panic) and any panic propagated out of the Mmu.  The returned Nat is the
instruction's cost in T-states. -/
def Cpu.execute_instr (cpu : Cpu) (instruction : Nat) : Option (Cpu × Nat) :=
  match instruction with
  | 0x00 => some (cpu, 4)
  | 0x01 => do
      let r ← cpu.fetch_word
      some ({ r.1 with registers := r.1.registers.set_r16 .BC r.2 }, 12)
  | 0x02 =>
      let value := cpu.registers.get_r8 .A
      let address := cpu.registers.get_r16 .BC
      do
      let mmu1 ← cpu.mmu.write_byte address value
      some ({ cpu with mmu := mmu1 }, 8)
  | 0x03 =>
      let value := cpu.registers.get_r16 .BC
      some ({ cpu with registers := cpu.registers.set_r16 .BC (wadd16 value 1) }, 8)
  | 0x04 =>
      let p := cpu.alu_inc_byte (cpu.registers.get_r8 .B)
      some ({ p.1 with registers := p.1.registers.set_r8 .B p.2 }, 4)
  | 0x05 =>
      let p := cpu.alu_dec_byte (cpu.registers.get_r8 .B)
      some ({ p.1 with registers := p.1.registers.set_r8 .B p.2 }, 4)
  | 0x06 => do
      let r ← cpu.fetch_byte
      some ({ r.1 with registers := r.1.registers.set_r8 .B r.2 }, 8)
  | 0x07 =>
      let p := cpu.bit_op_rlc (cpu.registers.get_r8 .A)
      let regs := p.1.registers.set_r8 .A p.2
      let regs := regs.set_flag .Z false
      some ({ p.1 with registers := regs }, 4)
  | 0x08 => do
      let r ← cpu.fetch_word
      let mmu1 ← r.1.mmu.write_word r.2 r.1.registers.sp
      some ({ r.1 with mmu := mmu1 }, 20)
  | 0x09 =>
      let hl := cpu.registers.get_r16 .HL
      let bc := cpu.registers.get_r16 .BC
      let p := cpu.alu_add_words hl bc
      some ({ p.1 with registers := p.1.registers.set_r16 .HL p.2 }, 8)
  | 0x0A => do
      let value ← cpu.mmu.read_byte (cpu.registers.get_r16 .BC)
      some ({ cpu with registers := cpu.registers.set_r8 .A value }, 8)
  | 0x0B =>
      let value := cpu.registers.get_r16 .BC
      some ({ cpu with registers := cpu.registers.set_r16 .BC (wsub16 value 1) }, 8)
  | 0x0C =>
      let p := cpu.alu_inc_byte (cpu.registers.get_r8 .C)
      some ({ p.1 with registers := p.1.registers.set_r8 .C p.2 }, 4)
  | 0x0D =>
      let p := cpu.alu_dec_byte (cpu.registers.get_r8 .C)
      some ({ p.1 with registers := p.1.registers.set_r8 .C p.2 }, 4)
  | 0x0E => do
      let r ← cpu.fetch_byte
      some ({ r.1 with registers := r.1.registers.set_r8 .C r.2 }, 8)
  | 0x0F => none
  | 0x10 => none
  | 0x11 => do
      let r ← cpu.fetch_word
      some ({ r.1 with registers := r.1.registers.set_r16 .DE r.2 }, 12)
  | 0x12 =>
      let value := cpu.registers.get_r8 .A
      let address := cpu.registers.get_r16 .DE
      do
      let mmu1 ← cpu.mmu.write_byte address value
      some ({ cpu with mmu := mmu1 }, 8)
  | 0x13 =>
      let value := cpu.registers.get_r16 .DE
      some ({ cpu with registers := cpu.registers.set_r16 .DE (wadd16 value 1) }, 8)
  | 0x14 =>
      let p := cpu.alu_inc_byte (cpu.registers.get_r8 .D)
      some ({ p.1 with registers := p.1.registers.set_r8 .D p.2 }, 4)
  | 0x15 =>
      let p := cpu.alu_dec_byte (cpu.registers.get_r8 .D)
      some ({ p.1 with registers := p.1.registers.set_r8 .D p.2 }, 4)
  | 0x16 => do
      let r ← cpu.fetch_byte
      some ({ r.1 with registers := r.1.registers.set_r8 .D r.2 }, 8)
  | 0x19 =>
      let hl := cpu.registers.get_r16 .HL
      let de := cpu.registers.get_r16 .DE
      let p := cpu.alu_add_words hl de
      some ({ p.1 with registers := p.1.registers.set_r16 .HL p.2 }, 8)
  | 0x1A => do
      let value ← cpu.mmu.read_byte (cpu.registers.get_r16 .DE)
      some ({ cpu with registers := cpu.registers.set_r8 .A value }, 8)
  | 0x1B =>
      let value := cpu.registers.get_r16 .DE
      some ({ cpu with registers := cpu.registers.set_r16 .DE (wsub16 value 1) }, 8)
  | 0x1C =>
      let p := cpu.alu_inc_byte (cpu.registers.get_r8 .E)
      some ({ p.1 with registers := p.1.registers.set_r8 .E p.2 }, 4)
  | 0x1D =>
      let p := cpu.alu_dec_byte (cpu.registers.get_r8 .E)
      some ({ p.1 with registers := p.1.registers.set_r8 .E p.2 }, 4)
  | 0x1E => do
      let r ← cpu.fetch_byte
      some ({ r.1 with registers := r.1.registers.set_r8 .E r.2 }, 8)
  | 0x21 => do
      let r ← cpu.fetch_word
      some ({ r.1 with registers := r.1.registers.set_r16 .HL r.2 }, 12)
  | 0x22 =>
      let value := cpu.registers.get_r8 .A
      let address := cpu.registers.get_r16 .HL
      do
      let mmu1 ← cpu.mmu.write_byte address value
      let cpu1 := { cpu with mmu := mmu1 }
      some ({ cpu1 with registers := cpu1.registers.set_r16 .HL (wadd16 address 1) }, 8)
  | 0x23 =>
      let value := cpu.registers.get_r16 .HL
      some ({ cpu with registers := cpu.registers.set_r16 .HL (wadd16 value 1) }, 8)
  | 0x24 =>
      let p := cpu.alu_inc_byte (cpu.registers.get_r8 .H)
      some ({ p.1 with registers := p.1.registers.set_r8 .H p.2 }, 4)
  | 0x25 =>
      let p := cpu.alu_dec_byte (cpu.registers.get_r8 .H)
      some ({ p.1 with registers := p.1.registers.set_r8 .H p.2 }, 4)
  | 0x26 => do
      let r ← cpu.fetch_byte
      some ({ r.1 with registers := r.1.registers.set_r8 .H r.2 }, 8)
  | 0x27 => none
  | 0x29 =>
      let hl := cpu.registers.get_r16 .HL
      let p := cpu.alu_add_words hl hl
      some ({ p.1 with registers := p.1.registers.set_r16 .HL p.2 }, 8)
  | 0x2A =>
      let address := cpu.registers.get_r16 .HL
      let cpu1 := { cpu with registers := cpu.registers.set_r16 .HL (wadd16 address 1) }
      do
      let value ← cpu1.mmu.read_byte address
      some ({ cpu1 with registers := cpu1.registers.set_r8 .A value }, 8)
  | 0x2B =>
      let value := cpu.registers.get_r16 .HL
      some ({ cpu with registers := cpu.registers.set_r16 .HL (wsub16 value 1) }, 8)
  | 0x2C =>
      let p := cpu.alu_inc_byte (cpu.registers.get_r8 .L)
      some ({ p.1 with registers := p.1.registers.set_r8 .L p.2 }, 4)
  | 0x2D =>
      let p := cpu.alu_dec_byte (cpu.registers.get_r8 .L)
      some ({ p.1 with registers := p.1.registers.set_r8 .L p.2 }, 4)
  | 0x2E => do
      let r ← cpu.fetch_byte
      some ({ r.1 with registers := r.1.registers.set_r8 .L r.2 }, 8)
  | 0x2F =>
      let a := cpu.registers.get_r8 .A
      let regs := cpu.registers.set_r8 .A (0xFF ^^^ a)
      let regs := regs.set_flag .N true
      let regs := regs.set_flag .H true
      some ({ cpu with registers := regs }, 4)
  | 0x31 => do
      let r ← cpu.fetch_word
      some ({ r.1 with registers := r.1.registers.set_r16 .SP r.2 }, 12)
  | 0x32 =>
      let value := cpu.registers.get_r8 .A
      let address := cpu.registers.get_r16 .HL
      do
      let mmu1 ← cpu.mmu.write_byte address value
      let cpu1 := { cpu with mmu := mmu1 }
      some ({ cpu1 with registers := cpu1.registers.set_r16 .HL (wsub16 address 1) }, 8)
  | 0x33 =>
      some ({ cpu with registers := { cpu.registers with sp := wadd16 cpu.registers.sp 1 } }, 8)
  | 0x34 =>
      let address := cpu.registers.get_r16 .HL
      do
      let value ← cpu.mmu.read_byte address
      let p := cpu.alu_inc_byte value
      let mmu1 ← p.1.mmu.write_byte address p.2
      some ({ p.1 with mmu := mmu1 }, 12)
  | 0x35 =>
      let address := cpu.registers.get_r16 .HL
      do
      let value ← cpu.mmu.read_byte address
      let p := cpu.alu_dec_byte value
      let mmu1 ← p.1.mmu.write_byte address p.2
      some ({ p.1 with mmu := mmu1 }, 12)
  | 0x36 => do
      let r ← cpu.fetch_byte
      let address := r.1.registers.get_r16 .HL
      let mmu1 ← r.1.mmu.write_byte address r.2
      some ({ r.1 with mmu := mmu1 }, 12)
  | 0x37 =>
      let regs := cpu.registers.set_flag .N false
      let regs := regs.set_flag .H false
      let regs := regs.set_flag .C true
      some ({ cpu with registers := regs }, 4)
  | 0x38 =>
      let flags := cpu.registers.get_r8 .F
      let flags := flags ||| 0b00010000
      let flags := flags &&& 0b10011111
      some ({ cpu with registers := cpu.registers.set_r8 .F flags }, 4)
  | 0x39 =>
      let hl := cpu.registers.get_r16 .HL
      let sp := cpu.registers.get_r16 .SP
      let p := cpu.alu_add_words hl sp
      some ({ p.1 with registers := p.1.registers.set_r16 .HL p.2 }, 8)
  | 0x3A =>
      let address := cpu.registers.get_r16 .HL
      let cpu1 := { cpu with registers := cpu.registers.set_r16 .HL (wsub16 address 1) }
      do
      let value ← cpu1.mmu.read_byte address
      some ({ cpu1 with registers := cpu1.registers.set_r8 .A value }, 8)
  | 0x3B =>
      some ({ cpu with registers := { cpu.registers with sp := wsub16 cpu.registers.sp 1 } }, 8)
  | 0x3C =>
      let p := cpu.alu_inc_byte (cpu.registers.get_r8 .A)
      some ({ p.1 with registers := p.1.registers.set_r8 .A p.2 }, 4)
  | 0x3D =>
      let p := cpu.alu_dec_byte (cpu.registers.get_r8 .A)
      some ({ p.1 with registers := p.1.registers.set_r8 .A p.2 }, 4)
  | 0x3E => do
      let r ← cpu.fetch_byte
      some ({ r.1 with registers := r.1.registers.set_r8 .A r.2 }, 8)
  | 0x3F =>
      let c := cpu.registers.flag_value .C
      let regs := cpu.registers.set_flag .N false
      let regs := regs.set_flag .H false
      let regs := regs.set_flag .C (!c)
      some ({ cpu with registers := regs }, 4)
  | 0x40 => some (cpu, 4)
  | 0x41 => some (cpu.ld_regs_8b .B .C, 4)
  | 0x42 => some (cpu.ld_regs_8b .B .D, 4)
  | 0x43 => some (cpu.ld_regs_8b .B .E, 4)
  | 0x44 => some (cpu.ld_regs_8b .B .H, 4)
  | 0x45 => some (cpu.ld_regs_8b .B .L, 4)
  | 0x46 => do
      let value ← cpu.mmu.read_byte (cpu.registers.get_r16 .HL)
      some ({ cpu with registers := cpu.registers.set_r8 .B value }, 8)
  | 0x47 => some (cpu.ld_regs_8b .B .A, 4)
  | 0x48 => some (cpu.ld_regs_8b .C .B, 4)
  | 0x49 => some (cpu, 4)
  | 0x4A => some (cpu.ld_regs_8b .C .D, 4)
  | 0x4B => some (cpu.ld_regs_8b .C .E, 4)
  | 0x4C => some (cpu.ld_regs_8b .C .H, 4)
  | 0x4D => some (cpu.ld_regs_8b .C .L, 4)
  | 0x4E => do
      let value ← cpu.mmu.read_byte (cpu.registers.get_r16 .HL)
      some ({ cpu with registers := cpu.registers.set_r8 .C value }, 8)
  | 0x4F => some (cpu.ld_regs_8b .C .A, 4)
  | 0x50 => some (cpu.ld_regs_8b .D .B, 4)
  | 0x51 => some (cpu.ld_regs_8b .D .C, 4)
  | 0x52 => some (cpu, 4)
  | 0x53 => some (cpu.ld_regs_8b .D .E, 4)
  | 0x54 => some (cpu.ld_regs_8b .D .H, 4)
  | 0x55 => some (cpu.ld_regs_8b .D .L, 4)
  | 0x56 => do
      let value ← cpu.mmu.read_byte (cpu.registers.get_r16 .HL)
      some ({ cpu with registers := cpu.registers.set_r8 .D value }, 8)
  | 0x57 => some (cpu.ld_regs_8b .D .A, 4)
  | 0x58 => some (cpu.ld_regs_8b .E .B, 4)
  | 0x59 => some (cpu.ld_regs_8b .E .C, 4)
  | 0x5A => some (cpu.ld_regs_8b .E .D, 4)
  | 0x5B => some (cpu, 4)
  | 0x5C => some (cpu.ld_regs_8b .E .H, 4)
  | 0x5D => some (cpu.ld_regs_8b .E .L, 4)
  | 0x5E => do
      let value ← cpu.mmu.read_byte (cpu.registers.get_r16 .HL)
      some ({ cpu with registers := cpu.registers.set_r8 .E value }, 8)
  | 0x5F => some (cpu.ld_regs_8b .E .A, 4)
  | 0x60 => some (cpu.ld_regs_8b .H .B, 4)
  | 0x61 => some (cpu.ld_regs_8b .H .C, 4)
  | 0x62 => some (cpu.ld_regs_8b .H .D, 4)
  | 0x63 => some (cpu.ld_regs_8b .H .E, 4)
  | 0x64 => some (cpu, 4)
  | 0x65 => some (cpu.ld_regs_8b .H .L, 4)
  | 0x66 => do
      let value ← cpu.mmu.read_byte (cpu.registers.get_r16 .HL)
      some ({ cpu with registers := cpu.registers.set_r8 .H value }, 8)
  | 0x67 => some (cpu.ld_regs_8b .H .A, 4)
  | 0x68 => some (cpu.ld_regs_8b .L .B, 4)
  | 0x69 => some (cpu.ld_regs_8b .L .C, 4)
  | 0x6A => some (cpu.ld_regs_8b .L .D, 4)
  | 0x6B => some (cpu.ld_regs_8b .L .E, 4)
  | 0x6C => some (cpu.ld_regs_8b .L .H, 4)
  | 0x6D => some (cpu, 4)
  | 0x6E => do
      let value ← cpu.mmu.read_byte (cpu.registers.get_r16 .HL)
      some ({ cpu with registers := cpu.registers.set_r8 .L value }, 8)
  | 0x6F => some (cpu.ld_regs_8b .L .A, 4)
  | 0x70 =>
      let address := cpu.registers.get_r16 .HL
      let value := cpu.registers.get_r8 .B
      do
      let mmu1 ← cpu.mmu.write_byte address value
      some ({ cpu with mmu := mmu1 }, 8)
  | 0x71 =>
      let address := cpu.registers.get_r16 .HL
      let value := cpu.registers.get_r8 .C
      do
      let mmu1 ← cpu.mmu.write_byte address value
      some ({ cpu with mmu := mmu1 }, 8)
  | 0x72 =>
      let address := cpu.registers.get_r16 .HL
      let value := cpu.registers.get_r8 .D
      do
      let mmu1 ← cpu.mmu.write_byte address value
      some ({ cpu with mmu := mmu1 }, 8)
  | 0x73 =>
      let address := cpu.registers.get_r16 .HL
      let value := cpu.registers.get_r8 .E
      do
      let mmu1 ← cpu.mmu.write_byte address value
      some ({ cpu with mmu := mmu1 }, 8)
  | 0x74 =>
      let address := cpu.registers.get_r16 .HL
      let value := cpu.registers.get_r8 .H
      do
      let mmu1 ← cpu.mmu.write_byte address value
      some ({ cpu with mmu := mmu1 }, 8)
  | 0x75 =>
      let address := cpu.registers.get_r16 .HL
      let value := cpu.registers.get_r8 .L
      do
      let mmu1 ← cpu.mmu.write_byte address value
      some ({ cpu with mmu := mmu1 }, 8)
  | 0x76 => none
  | 0x77 =>
      let address := cpu.registers.get_r16 .HL
      let value := cpu.registers.get_r8 .A
      do
      let mmu1 ← cpu.mmu.write_byte address value
      some ({ cpu with mmu := mmu1 }, 8)
  | 0x78 => some (cpu.ld_regs_8b .A .B, 4)
  | 0x79 => some (cpu.ld_regs_8b .A .C, 4)
  | 0x7A => some (cpu.ld_regs_8b .A .D, 4)
  | 0x7B => some (cpu.ld_regs_8b .A .E, 4)
  | 0x7C => some (cpu.ld_regs_8b .A .H, 4)
  | 0x7D => some (cpu.ld_regs_8b .A .L, 4)
  | 0x7E => do
      let value ← cpu.mmu.read_byte (cpu.registers.get_r16 .HL)
      some ({ cpu with registers := cpu.registers.set_r8 .A value }, 8)
  | 0x7F => some (cpu, 4)
  | 0x80 =>
      let p := cpu.alu_add_bytes (cpu.registers.get_r8 .A) (cpu.registers.get_r8 .B) false
      some ({ p.1 with registers := p.1.registers.set_r8 .A p.2 }, 4)
  | 0x81 =>
      let p := cpu.alu_add_bytes (cpu.registers.get_r8 .A) (cpu.registers.get_r8 .C) false
      some ({ p.1 with registers := p.1.registers.set_r8 .A p.2 }, 4)
  | 0x82 =>
      let p := cpu.alu_add_bytes (cpu.registers.get_r8 .A) (cpu.registers.get_r8 .D) false
      some ({ p.1 with registers := p.1.registers.set_r8 .A p.2 }, 4)
  | 0x83 =>
      let p := cpu.alu_add_bytes (cpu.registers.get_r8 .A) (cpu.registers.get_r8 .E) false
      some ({ p.1 with registers := p.1.registers.set_r8 .A p.2 }, 4)
  | 0x84 =>
      let p := cpu.alu_add_bytes (cpu.registers.get_r8 .A) (cpu.registers.get_r8 .H) false
      some ({ p.1 with registers := p.1.registers.set_r8 .A p.2 }, 4)
  | 0x85 =>
      let p := cpu.alu_add_bytes (cpu.registers.get_r8 .A) (cpu.registers.get_r8 .L) false
      some ({ p.1 with registers := p.1.registers.set_r8 .A p.2 }, 4)
  | 0x86 => do
      let y ← cpu.mmu.read_byte (cpu.registers.get_r16 .HL)
      let p := cpu.alu_add_bytes (cpu.registers.get_r8 .A) y false
      some ({ p.1 with registers := p.1.registers.set_r8 .A p.2 }, 8)
  | 0x87 =>
      let a := cpu.registers.get_r8 .A
      let p := cpu.alu_add_bytes a a false
      some ({ p.1 with registers := p.1.registers.set_r8 .A p.2 }, 4)
  | 0x88 =>
      let p := cpu.alu_add_bytes (cpu.registers.get_r8 .A) (cpu.registers.get_r8 .B) true
      some ({ p.1 with registers := p.1.registers.set_r8 .A p.2 }, 4)
  | 0x89 =>
      let p := cpu.alu_add_bytes (cpu.registers.get_r8 .A) (cpu.registers.get_r8 .C) true
      some ({ p.1 with registers := p.1.registers.set_r8 .A p.2 }, 4)
  | 0x8A =>
      let p := cpu.alu_add_bytes (cpu.registers.get_r8 .A) (cpu.registers.get_r8 .D) true
      some ({ p.1 with registers := p.1.registers.set_r8 .A p.2 }, 4)
  | 0x8B =>
      let p := cpu.alu_add_bytes (cpu.registers.get_r8 .A) (cpu.registers.get_r8 .E) true
      some ({ p.1 with registers := p.1.registers.set_r8 .A p.2 }, 4)
  | 0x8C =>
      let p := cpu.alu_add_bytes (cpu.registers.get_r8 .A) (cpu.registers.get_r8 .H) true
      some ({ p.1 with registers := p.1.registers.set_r8 .A p.2 }, 4)
  | 0x8D =>
      let p := cpu.alu_add_bytes (cpu.registers.get_r8 .A) (cpu.registers.get_r8 .L) true
      some ({ p.1 with registers := p.1.registers.set_r8 .A p.2 }, 4)
  | 0x8E => do
      let y ← cpu.mmu.read_byte (cpu.registers.get_r16 .HL)
      let p := cpu.alu_add_bytes (cpu.registers.get_r8 .A) y true
      some ({ p.1 with registers := p.1.registers.set_r8 .A p.2 }, 8)
  | 0x8F =>
      let a := cpu.registers.get_r8 .A
      let p := cpu.alu_add_bytes a a true
      some ({ p.1 with registers := p.1.registers.set_r8 .A p.2 }, 4)
  | 0x90 =>
      let p := cpu.alu_sub_bytes (cpu.registers.get_r8 .A) (cpu.registers.get_r8 .B) false
      some ({ p.1 with registers := p.1.registers.set_r8 .A p.2 }, 4)
  | 0x91 =>
      let p := cpu.alu_sub_bytes (cpu.registers.get_r8 .A) (cpu.registers.get_r8 .C) false
      some ({ p.1 with registers := p.1.registers.set_r8 .A p.2 }, 4)
  | 0x92 =>
      let p := cpu.alu_sub_bytes (cpu.registers.get_r8 .A) (cpu.registers.get_r8 .D) false
      some ({ p.1 with registers := p.1.registers.set_r8 .A p.2 }, 4)
  | 0x93 =>
      let p := cpu.alu_sub_bytes (cpu.registers.get_r8 .A) (cpu.registers.get_r8 .E) false
      some ({ p.1 with registers := p.1.registers.set_r8 .A p.2 }, 4)
  | 0x94 =>
      let p := cpu.alu_sub_bytes (cpu.registers.get_r8 .A) (cpu.registers.get_r8 .H) false
      some ({ p.1 with registers := p.1.registers.set_r8 .A p.2 }, 4)
  | 0x95 =>
      let p := cpu.alu_sub_bytes (cpu.registers.get_r8 .A) (cpu.registers.get_r8 .L) false
      some ({ p.1 with registers := p.1.registers.set_r8 .A p.2 }, 4)
  | 0x96 => do
      let y ← cpu.mmu.read_byte (cpu.registers.get_r16 .HL)
      let p := cpu.alu_sub_bytes (cpu.registers.get_r8 .A) y false
      some ({ p.1 with registers := p.1.registers.set_r8 .A p.2 }, 8)
  | 0x97 =>
      let a := cpu.registers.get_r8 .A
      let p := cpu.alu_sub_bytes a a false
      some ({ p.1 with registers := p.1.registers.set_r8 .A p.2 }, 4)
  | 0x98 =>
      let p := cpu.alu_sub_bytes (cpu.registers.get_r8 .A) (cpu.registers.get_r8 .B) true
      some ({ p.1 with registers := p.1.registers.set_r8 .A p.2 }, 4)
  | 0x99 =>
      let p := cpu.alu_sub_bytes (cpu.registers.get_r8 .A) (cpu.registers.get_r8 .C) true
      some ({ p.1 with registers := p.1.registers.set_r8 .A p.2 }, 4)
  | 0x9A =>
      let p := cpu.alu_sub_bytes (cpu.registers.get_r8 .A) (cpu.registers.get_r8 .D) true
      some ({ p.1 with registers := p.1.registers.set_r8 .A p.2 }, 4)
  | 0x9B =>
      let p := cpu.alu_sub_bytes (cpu.registers.get_r8 .A) (cpu.registers.get_r8 .E) true
      some ({ p.1 with registers := p.1.registers.set_r8 .A p.2 }, 4)
  | 0x9C =>
      let p := cpu.alu_sub_bytes (cpu.registers.get_r8 .A) (cpu.registers.get_r8 .H) true
      some ({ p.1 with registers := p.1.registers.set_r8 .A p.2 }, 4)
  | 0x9D =>
      let p := cpu.alu_sub_bytes (cpu.registers.get_r8 .A) (cpu.registers.get_r8 .L) true
      some ({ p.1 with registers := p.1.registers.set_r8 .A p.2 }, 4)
  | 0x9E => do
      let y ← cpu.mmu.read_byte (cpu.registers.get_r16 .HL)
      let p := cpu.alu_sub_bytes (cpu.registers.get_r8 .A) y true
      some ({ p.1 with registers := p.1.registers.set_r8 .A p.2 }, 8)
  | 0x9F =>
      let a := cpu.registers.get_r8 .A
      let p := cpu.alu_sub_bytes a a true
      some ({ p.1 with registers := p.1.registers.set_r8 .A p.2 }, 4)
  | 0xA0 => some (cpu.alu_and_a (cpu.registers.get_r8 .B), 4)
  | 0xA1 => some (cpu.alu_and_a (cpu.registers.get_r8 .C), 4)
  | 0xA2 => some (cpu.alu_and_a (cpu.registers.get_r8 .D), 4)
  | 0xA3 => some (cpu.alu_and_a (cpu.registers.get_r8 .E), 4)
  | 0xA4 => some (cpu.alu_and_a (cpu.registers.get_r8 .H), 4)
  | 0xA5 => some (cpu.alu_and_a (cpu.registers.get_r8 .L), 4)
  | 0xA6 => do
      let y ← cpu.mmu.read_byte (cpu.registers.get_r16 .HL)
      some (cpu.alu_and_a y, 8)
  | 0xA7 => some (cpu.alu_and_a (cpu.registers.get_r8 .A), 4)
  | 0xA8 => some (cpu.alu_xor_a (cpu.registers.get_r8 .B), 4)
  | 0xA9 => some (cpu.alu_xor_a (cpu.registers.get_r8 .C), 4)
  | 0xAA => some (cpu.alu_xor_a (cpu.registers.get_r8 .D), 4)
  | 0xAB => some (cpu.alu_xor_a (cpu.registers.get_r8 .E), 4)
  | 0xAC => some (cpu.alu_xor_a (cpu.registers.get_r8 .H), 4)
  | 0xAD => some (cpu.alu_xor_a (cpu.registers.get_r8 .L), 4)
  | 0xAE => do
      let y ← cpu.mmu.read_byte (cpu.registers.get_r16 .HL)
      some (cpu.alu_xor_a y, 8)
  | 0xAF => some (cpu.alu_xor_a (cpu.registers.get_r8 .A), 4)
  | 0xB0 => some (cpu.alu_or_a (cpu.registers.get_r8 .B), 4)
  | 0xB1 => some (cpu.alu_or_a (cpu.registers.get_r8 .C), 4)
  | 0xB2 => some (cpu.alu_or_a (cpu.registers.get_r8 .D), 4)
  | 0xB3 => some (cpu.alu_or_a (cpu.registers.get_r8 .E), 4)
  | 0xB4 => some (cpu.alu_or_a (cpu.registers.get_r8 .H), 4)
  | 0xB5 => some (cpu.alu_or_a (cpu.registers.get_r8 .L), 4)
  | 0xB6 => do
      let y ← cpu.mmu.read_byte (cpu.registers.get_r16 .HL)
      some (cpu.alu_or_a y, 8)
  | 0xB7 => some (cpu.alu_or_a (cpu.registers.get_r8 .A), 4)
  | 0xB8 => some (cpu.alu_cp_a (cpu.registers.get_r8 .B), 4)
  | 0xB9 => some (cpu.alu_cp_a (cpu.registers.get_r8 .C), 4)
  | 0xBA => some (cpu.alu_cp_a (cpu.registers.get_r8 .D), 4)
  | 0xBB => some (cpu.alu_cp_a (cpu.registers.get_r8 .E), 4)
  | 0xBC => some (cpu.alu_cp_a (cpu.registers.get_r8 .H), 4)
  | 0xBD => some (cpu.alu_cp_a (cpu.registers.get_r8 .L), 4)
  | 0xBE => do
      let y ← cpu.mmu.read_byte (cpu.registers.get_r16 .HL)
      some (cpu.alu_cp_a y, 8)
  | 0xBF => some (cpu.alu_cp_a (cpu.registers.get_r8 .A), 4)
  | 0xC1 => do
      let value ← cpu.mmu.read_word cpu.registers.sp
      let cpu1 := { cpu with registers := { cpu.registers with sp := wadd16 cpu.registers.sp 2 } }
      some ({ cpu1 with registers := cpu1.registers.set_r16 .BC value }, 12)
  | 0xC5 =>
      let value := cpu.registers.get_r16 .BC
      let cpu1 := { cpu with registers := { cpu.registers with sp := wsub16 cpu.registers.sp 2 } }
      do
      let mmu1 ← cpu1.mmu.write_word cpu1.registers.sp value
      some ({ cpu1 with mmu := mmu1 }, 16)
  | 0xC6 => do
      let r ← cpu.fetch_byte
      let a := r.1.registers.get_r8 .A
      let p := r.1.alu_add_bytes a r.2 false
      some (p.1, 8)
  | 0xCB => do
      let r ← cpu.fetch_byte
      r.1.execute_prefixed_instr r.2
  | 0xCE => do
      let r ← cpu.fetch_byte
      let a := r.1.registers.get_r8 .A
      let p := r.1.alu_add_bytes a r.2 true
      some (p.1, 8)
  | 0xD1 => do
      let value ← cpu.mmu.read_word cpu.registers.sp
      let cpu1 := { cpu with registers := { cpu.registers with sp := wadd16 cpu.registers.sp 2 } }
      some ({ cpu1 with registers := cpu1.registers.set_r16 .DE value }, 12)
  | 0xD5 =>
      let value := cpu.registers.get_r16 .DE
      let cpu1 := { cpu with registers := { cpu.registers with sp := wsub16 cpu.registers.sp 2 } }
      do
      let mmu1 ← cpu1.mmu.write_word cpu1.registers.sp value
      some ({ cpu1 with mmu := mmu1 }, 16)
  | 0xD6 => do
      let r ← cpu.fetch_byte
      let a := r.1.registers.get_r8 .A
      let p := r.1.alu_sub_bytes a r.2 false
      some (p.1, 8)
  | 0xDE => do
      let r ← cpu.fetch_byte
      let a := r.1.registers.get_r8 .A
      let p := r.1.alu_sub_bytes a r.2 true
      some (p.1, 8)
  | 0xE0 => do
      let r ← cpu.fetch_byte
      let address := r.2 + 0xFF00
      let value := r.1.registers.get_r8 .A
      let mmu1 ← r.1.mmu.write_byte address value
      some ({ r.1 with mmu := mmu1 }, 12)
  | 0xE1 => do
      let value ← cpu.mmu.read_word cpu.registers.sp
      let cpu1 := { cpu with registers := { cpu.registers with sp := wadd16 cpu.registers.sp 2 } }
      some ({ cpu1 with registers := cpu1.registers.set_r16 .HL value }, 12)
  | 0xE2 =>
      let address := cpu.registers.get_r8 .C + 0xFF00
      let value := cpu.registers.get_r8 .A
      do
      let mmu1 ← cpu.mmu.write_byte address value
      some ({ cpu with mmu := mmu1 }, 12)
  | 0xE5 =>
      let value := cpu.registers.get_r16 .HL
      let cpu1 := { cpu with registers := { cpu.registers with sp := wsub16 cpu.registers.sp 2 } }
      do
      let mmu1 ← cpu1.mmu.write_word cpu1.registers.sp value
      some ({ cpu1 with mmu := mmu1 }, 16)
  | 0xE6 => do
      let r ← cpu.fetch_byte
      some (r.1.alu_and_a r.2, 8)
  | 0xE8 => do
      let r ← cpu.fetch_byte
      let offset := i8_as_u16 r.2
      let p := r.1.alu_add_words r.1.registers.sp offset
      let cpu2 := { p.1 with registers := { p.1.registers with sp := p.2 } }
      some ({ cpu2 with registers := cpu2.registers.set_flag .Z false }, 16)
  | 0xEA => do
      let r ← cpu.fetch_word
      let value := r.1.registers.get_r8 .A
      let mmu1 ← r.1.mmu.write_byte r.2 value
      some ({ r.1 with mmu := mmu1 }, 16)
  | 0xEE => do
      let r ← cpu.fetch_byte
      some (r.1.alu_xor_a r.2, 8)
  | 0xEF => some (cpu, 16)
  | 0xF0 => do
      let r ← cpu.fetch_byte
      let address := r.2 + 0xFF00
      let value ← r.1.mmu.read_byte address
      some ({ r.1 with registers := r.1.registers.set_r8 .A value }, 12)
  | 0xF1 => do
      let value ← cpu.mmu.read_word cpu.registers.sp
      let cpu1 := { cpu with registers := { cpu.registers with sp := wadd16 cpu.registers.sp 2 } }
      some ({ cpu1 with registers := cpu1.registers.set_r16 .AF value }, 12)
  | 0xF2 =>
      let address := cpu.registers.get_r8 .C + 0xFF00
      do
      let value ← cpu.mmu.read_byte address
      some ({ cpu with registers := cpu.registers.set_r8 .A value }, 12)
  | 0xF3 => some ({ cpu with interrupt_master_enable := false }, 4)
  | 0xF5 =>
      let value := cpu.registers.get_r16 .AF ||| 0xFFF0
      let cpu1 := { cpu with registers := { cpu.registers with sp := wsub16 cpu.registers.sp 2 } }
      do
      let mmu1 ← cpu1.mmu.write_word cpu1.registers.sp value
      some ({ cpu1 with mmu := mmu1 }, 16)
  | 0xF6 => do
      let r ← cpu.fetch_byte
      some (r.1.alu_or_a r.2, 8)
  | 0xF8 => do
      let r ← cpu.fetch_byte
      let offset := i8_as_u16 r.2
      let p := r.1.alu_add_words r.1.registers.sp offset
      let cpu2 := { p.1 with registers := p.1.registers.set_r16 .HL p.2 }
      some ({ cpu2 with registers := cpu2.registers.set_flag .Z false }, 12)
  | 0xFA => do
      let r ← cpu.fetch_word
      let value ← r.1.mmu.read_byte r.2
      some ({ r.1 with registers := r.1.registers.set_r8 .A value }, 16)
  | 0xFB => some ({ cpu with interrupt_master_enable := true }, 4)
  | 0xF9 =>
      let value := cpu.registers.get_r16 .HL
      some ({ cpu with registers := cpu.registers.set_r16 .SP value }, 8)
  | 0xFE => do
      let r ← cpu.fetch_byte
      some (r.1.alu_cp_a r.2, 8)
  | 0xFF => none
  | _ => none

/-! ## Concrete fixtures used by the claim theorems -/

/-- A CPU whose C flag is set (for exercising the carry path of the ALU). -/
def cpuWithCarrySet : Cpu :=
  { Cpu.new with registers := Registers.new.set_flag .C true }

/-- A CPU whose Z flag is set (for the word-add Z-preservation example). -/
def cpuWithZeroSet : Cpu :=
  { Cpu.new with registers := Registers.new.set_flag .Z true }

/-- A CPU with A = 0x01 and the byte 0x02 at cartridge address 0 (the
immediate operand for a d8 instruction executed with PC = 0). -/
def cpuImmFixture : Cpu :=
  { Cpu.new with
    registers := { Registers.new with a := 0x01 }
    mmu := { Mmu.new with mbc := { rom := fun i => if i = 0 then 0x02 else 0 } } }

/-- A CPU with the interrupt-master-enable flag set (for exercising DI). -/
def cpuWithImeSet : Cpu :=
  { Cpu.new with interrupt_master_enable := true }

/-! ## Helper lemmas -/

/-- Setting the Z flag and immediately reading it gives the value written,
for any byte stored in F. -/
theorem flag_Z_of_set_flag_Z (r : Registers) (b : Bool) :
    (r.set_flag .Z b).flag_value .Z = b := by
  cases b
  · show (((r.f &&& (0xFF ^^^ Flag.mask .Z)) &&& 0b10000000) >>> 7 == 1) = false
    have hm : (0xFF ^^^ Flag.mask .Z) = 127 := rfl
    rw [hm, Nat.land_assoc]
    have h0 : (127 &&& 128 : Nat) = 0 := rfl
    rw [h0, Nat.and_zero]
    rfl
  · show (((r.f ||| Flag.mask .Z) &&& 0b10000000) >>> 7 == 1) = true
    have h1 : (r.f ||| Flag.mask .Z) &&& 0b10000000 = 128 := by
      have h2 := Nat.and_two_pow (r.f ||| Flag.mask .Z) 7
      norm_num at h2
      rw [h2]
      have h3 : Nat.testBit (Flag.mask .Z) 7 = true := rfl
      simp [h3]
    rw [h1]
    rfl

/-! ## Claim theorems -/

/-- C1: the claim's H-flag formula fails on the code.  At x = 0x00, y = 0x0F,
use_carry = true with the C flag set, the returned value is 0x10 as the claim
states, but `alu_add_bytes` computes H from `x ^ (y + carry) ^ result`
(the carry is folded into y before the XOR test), which yields H = false,
while the claim's formula `((x ^ y ^ result) & 0x10) != 0` (and the half-carry
of real hardware) yields true. -/
theorem C1_adc_half_carry_at_failing_input :
    (cpuWithCarrySet.alu_add_bytes 0x00 0x0F true).2 = 0x10 ∧
    (cpuWithCarrySet.alu_add_bytes 0x00 0x0F true).1.registers.flag_value .H = false ∧
    ((0x00 ^^^ 0x0F ^^^ 0x10) &&& 0x10 : Nat) ≠ 0 :=
  ⟨rfl, rfl, by decide⟩

/-- C2: the WRAM region is NOT fully backed.  `WRAM_SIZE` is 0x1FFF (8191, one
short of 8 KiB), so address 0xDFFF maps to index 0x1FFF, which is out of
bounds for the backing vector: both the write and the read panic (`none`).
Address 0xDFFE, by contrast, round-trips as the claim describes. -/
theorem C2_wram_write_out_of_bounds :
    Mmu.write_byte Mmu.new 0xDFFF 0x55 = none ∧
    Mmu.read_byte Mmu.new 0xDFFF = none ∧
    (Mmu.write_byte Mmu.new 0xDFFE 0x55).bind (fun m1 => m1.read_byte 0xDFFE) = some 0x55 :=
  ⟨rfl, rfl, rfl⟩

/-- C3 counterexample: `set_r8(F, 0x0F)` stores 0x0F unmasked, so the low
nibble of F is 0x0F, not zero; the claimed invariant fails for direct F
writes. -/
theorem C3_counterexample_set_r8_F_unmasked :
    (Registers.new.set_r8 .F 0x0F).get_r8 .F = 0x0F ∧ ((0x0F &&& 0x0F : Nat) ≠ 0) :=
  ⟨rfl, by decide⟩

/-- C3 amended: the low-nibble-of-F-is-zero invariant holds for the operations
that mask: every `set_r16(AF, v)` masks bits 0-3 of F to zero, `set_flag`
preserves a zero low nibble, and `set_r16(AF, 0xFFFF)` followed by
`get_r8(F)` returns 0xF0; only direct `set_r8(F, v)` writes are unmasked. -/
theorem C3_af_writes_masked :
    (∀ (r : Registers) (v : Nat), ((r.set_r16 .AF v).get_r8 .F) &&& 0x0F = 0) ∧
    (∀ (r : Registers) (fl : Flag) (b : Bool),
      r.f &&& 0x0F = 0 → (r.set_flag fl b).f &&& 0x0F = 0) ∧
    (Registers.new.set_r16 .AF 0xFFFF).get_r8 .F = 0xF0 := by
  refine ⟨?_, ?_, rfl⟩
  · intro r v
    show ((word_to_bytes v).2 &&& 0xF0) &&& 0x0F = 0
    simp only [word_to_bytes]
    rw [Nat.land_assoc]
    have h0 : (0xF0 &&& 0x0F : Nat) = 0 := rfl
    rw [h0, Nat.and_zero]
  · intro r fl b h
    have key_or : ∀ m : Nat, m &&& 0x0F = 0 → (r.f ||| m) &&& 0x0F = 0 := by
      intro m hm
      rw [Nat.and_distrib_right, h, hm]
      rfl
    have key_and : ∀ c : Nat, c &&& 0x0F = 0x0F → (r.f &&& c) &&& 0x0F = 0 := by
      intro c hc
      rw [Nat.land_assoc, hc, h]
    cases fl <;> cases b <;>
      first
        | exact key_and _ rfl
        | exact key_or _ rfl

/-- C3 witness: the amended theorem applied at concrete inputs. -/
theorem C3_af_writes_masked_witness :
    ((Registers.new.set_r16 .AF 0xABCD).get_r8 .F) &&& 0x0F = 0 ∧
    (Registers.new.set_flag .C true).f &&& 0x0F = 0 :=
  ⟨C3_af_writes_masked.1 Registers.new 0xABCD,
   C3_af_writes_masked.2.1 Registers.new .C true (by decide)⟩

/-- C4: the MBC write error is swallowed, not surfaced.  At address 0x7FFF the
MBC's write_byte returns `ROMAccessOutOfRange`, yet `Mmu::write_byte` (whose
source statement discards the `Result` and whose return type is unit) returns
normally with the entire memory state unchanged: a silent success, exactly
what the claim forbids. -/
theorem C4_mbc_write_error_swallowed :
    MbcNone.write_byte Mmu.new.mbc 0x7FFF 0x01 = .error .ROMAccessOutOfRange ∧
    Mmu.write_byte Mmu.new 0x7FFF 0x01 = some Mmu.new :=
  ⟨rfl, rfl⟩

/-- C5: `ROM_SIZE_MBC_NONE` is 0x7FFF, and the bound check rejects
`address >= ROM_SIZE_MBC_NONE`, so address 0x7FFF itself (which the claim and
the module's own doc comment place inside the flat mapping) already returns
`RomAccessOutOfRange`, for reads and writes alike; 0x7FFE still succeeds and
0x8000 errors as claimed. -/
theorem C5_mbc_none_boundary :
    MbcNone.write_byte MbcNone.new 0x7FFF 0x01 = .error .ROMAccessOutOfRange ∧
    MbcNone.read_byte MbcNone.new 0x7FFF = .error .ROMAccessOutOfRange ∧
    MbcNone.read_byte MbcNone.new 0x7FFE = .ok 0 ∧
    MbcNone.write_byte MbcNone.new 0x8000 0x01 = .error .ROMAccessOutOfRange :=
  ⟨rfl, rfl, rfl, rfl⟩

/-- C6: both flags start false and EI/DI set/clear the interrupt-master-enable
flag as claimed, but opcode 0x76 (HALT) does NOT transition the CPU to Halted:
its arm calls the `unimpl_instr` panic placeholder (`none`), and no arm of
`execute_instr` ever writes the halted field. -/
theorem C6_halt_unimplemented_ei_di :
    Cpu.new.halted = false ∧
    Cpu.new.interrupt_master_enable = false ∧
    Cpu.execute_instr Cpu.new 0x76 = none ∧
    (Cpu.execute_instr Cpu.new 0xFB).map
      (fun p => (p.1.halted, p.1.interrupt_master_enable, p.2)) = some (false, true, 4) ∧
    (Cpu.execute_instr cpuWithImeSet 0xF3).map
      (fun p => (p.1.halted, p.1.interrupt_master_enable, p.2)) = some (false, false, 4) :=
  ⟨rfl, rfl, rfl, rfl, rfl⟩

/-- C7: the d8 arithmetic handlers drop the ALU result.  Starting from
A = 0x01 with immediate operand 0x02 at PC = 0, each of 0xC6 (ADD A,d8),
0xCE (ADC A,d8), 0xD6 (SUB A,d8) and 0xDE (SBC A,d8) leaves A = 0x01
(the handlers never call `set_r8(A, result)`), although PC advances past the
immediate and 8 cycles are returned; the claim requires A = 0x03, 0x03, 0xFF
and 0xFF respectively. -/
theorem C7_immediate_alu_result_discarded :
    (Cpu.execute_instr cpuImmFixture 0xC6).map
      (fun p => (p.1.registers.a, p.1.registers.pc, p.2)) = some (0x01, 1, 8) ∧
    (Cpu.execute_instr cpuImmFixture 0xCE).map
      (fun p => (p.1.registers.a, p.1.registers.pc, p.2)) = some (0x01, 1, 8) ∧
    (Cpu.execute_instr cpuImmFixture 0xD6).map
      (fun p => (p.1.registers.a, p.1.registers.pc, p.2)) = some (0x01, 1, 8) ∧
    (Cpu.execute_instr cpuImmFixture 0xDE).map
      (fun p => (p.1.registers.a, p.1.registers.pc, p.2)) = some (0x01, 1, 8) :=
  ⟨rfl, rfl, rfl, rfl⟩

/-- C8: reads in the unusable region 0xFEA0-0xFEFF do return 0, but writes
there are not no-ops: the write dispatch has no arm for that region, so the
call falls into `unimplemented!` and panics (`none`). -/
theorem C8_unusable_region_write_panics :
    Mmu.read_byte Mmu.new 0xFEA0 = some 0 ∧
    Mmu.read_byte Mmu.new 0xFEFF = some 0 ∧
    Mmu.write_byte Mmu.new 0xFEA0 0x01 = none ∧
    Mmu.write_byte Mmu.new 0xFEFF 0x01 = none :=
  ⟨rfl, rfl, rfl, rfl⟩

/-- C9: for all bytes x, y the carry-free add returns `x.wrapping_add(y)`
and the carry-free subtract of y from that result returns x (round trip on
the returned values, ignoring the flag side effects). -/
theorem C9_add_sub_round_trip (cpu : Cpu) (x y : Nat) (hx : x < 256) (hy : y < 256) :
    (cpu.alu_add_bytes x y false).2 = wadd8 x y ∧
    ((cpu.alu_add_bytes x y false).1.alu_sub_bytes
      ((cpu.alu_add_bytes x y false).2) y false).2 = x := by
  simp only [Cpu.alu_add_bytes, Cpu.alu_sub_bytes, wadd8, Bool.false_and,
    Bool.false_eq_true, if_false]
  constructor
  · omega
  · omega

/-- C9 witness: the round trip at x = 3, y = 250. -/
theorem C9_add_sub_round_trip_witness :
    (Cpu.new.alu_add_bytes 3 250 false).2 = wadd8 3 250 ∧
    ((Cpu.new.alu_add_bytes 3 250 false).1.alu_sub_bytes
      ((Cpu.new.alu_add_bytes 3 250 false).2) 250 false).2 = 3 :=
  C9_add_sub_round_trip Cpu.new 3 250 (by decide) (by decide)

/-- C10: `alu_add_words` never changes the Z flag: the Z value read before the
two chained byte adds is written back afterwards, so for every CPU state and
operands the Z flag after the call equals the Z flag before; in particular
with Z set, `alu_add_words(0x00FF, 0x0001)` leaves Z true. -/
theorem C10_add_words_preserves_Z :
    (∀ (cpu : Cpu) (x y : Nat),
      (cpu.alu_add_words x y).1.registers.flag_value .Z = cpu.registers.flag_value .Z) ∧
    (cpuWithZeroSet.alu_add_words 0x00FF 0x0001).1.registers.flag_value .Z = true := by
  have huniv : ∀ (cpu : Cpu) (x y : Nat),
      (cpu.alu_add_words x y).1.registers.flag_value .Z = cpu.registers.flag_value .Z := by
    intro cpu x y
    simp only [Cpu.alu_add_words]
    exact flag_Z_of_set_flag_Z _ _
  refine ⟨huniv, ?_⟩
  rw [huniv cpuWithZeroSet 0x00FF 0x0001]
  rfl

end RustyGb
